import Mathlib

/-!
# Transaction dashboard: query and aggregation handlers

A shallow embedding of `server.js` (the Express handlers over the `Product`
collection) and of `fetchStatistics` in `src/App.js`.

Modelling conventions.

* The collection is a list of documents; a collection scan visits them in list
  order (insertion order), the same on every call.
* A `price` is an exact rational and sums of prices are exact.  The arithmetic
  of the handler on `page` and `perPage` is double-precision: `JsNumber` holds
  the integer-valued doubles, the infinities and NaN, and every result is
  rounded to 53 significant bits.
* `Date` values are milliseconds since the epoch.
* Every schema field may be missing, as Mongoose declares no field required.
* A regular expression built from letters, digits and spaces is a
  case-insensitive substring search, with the ASCII letters folded; every other
  pattern is left to an engine the development is parametric in.
* A query parameter is text when present.  Numeric parameters (`month` of the
  transaction and statistics routes, `page`, `perPage`) range over decimal
  numerals and are represented by the number they spell; they still reach the
  handler as text, which is what `JsVal.text` records.
-/

namespace Advanto

/-! ## Data model (`productSchema`) -/

/-- One document of the `Product` collection, after `productSchema`. -/
structure Product where
  id : Option Int
  title : Option String
  description : Option String
  price : Option ℚ
  category : Option String
  dateOfSale : Option Int
  sold : Option Bool
deriving DecidableEq, Repr

/-- The collection held by the store. -/
abbrev Store := List Product

/-- A field value as the store compares it. -/
inductive Value where
  | null
  | number (q : ℚ)
  | text (s : String)
  | boolean (b : Bool)
  | date (ms : Int)
deriving DecidableEq, Repr

/-- Equality of handler outcomes is decidable. -/
instance instDecidableEqExcept {ε α : Type} [DecidableEq ε] [DecidableEq α] :
    DecidableEq (Except ε α)
  | .ok a, .ok b => if h : a = b then isTrue (by rw [h]) else isFalse (by intro e; cases e; exact h rfl)
  | .error a, .error b =>
    if h : a = b then isTrue (by rw [h]) else isFalse (by intro e; cases e; exact h rfl)
  | .ok _, .error _ => isFalse (by intro e; cases e)
  | .error _, .ok _ => isFalse (by intro e; cases e)

/-! ## Dates -/

/-- Milliseconds in a day. -/
def msPerDay : Int := 86400000

/-- Calendar month (1 to 12) of the day `days` days after 1970-01-01, in the
proleptic Gregorian calendar. -/
def monthOfDays (days : Int) : Nat :=
  let z := days + 719468
  let era := z / 146097
  let doe := z - era * 146097
  let yoe := (doe - doe / 1460 + doe / 36524 - doe / 146096) / 365
  let doy := doe - (365 * yoe + yoe / 4 - yoe / 100)
  let mp := (5 * doy + 2) / 153
  if mp < 10 then (mp + 3).toNat else (mp - 9).toNat

/-- The aggregation operator `$month` on a date: its month in UTC. -/
def utcMonth (ms : Int) : Nat := monthOfDays (ms / msPerDay)

/-- The constant `months` of `App.js`: the names a month parameter may spell. -/
def months : List String :=
  ["January", "February", "March", "April", "May", "June",
   "July", "August", "September", "October", "November", "December"]

/-- Days from 1 January 2023 to the first day of month `k` counted from
January 2023 (`k = 12` is January 2024). -/
def daysBeforeMonth2023 (k : Nat) : Int :=
  [0, 31, 59, 90, 120, 151, 181, 212, 243, 273, 304, 334, 365].getD k 365

/-- Day number of 1 January 2023. -/
def dayOfJan2023 : Int := 19358

/-- Instant of local midnight on the first day of month `k` counted from
January 2023.  `offset k` is the server's UTC offset, in minutes, at that local
time; `new Date("March 01, 2023")` and `setMonth` both work in local time. -/
def firstOfMonth (offset : Nat → Int) (k : Nat) : Int :=
  (dayOfJan2023 + daysBeforeMonth2023 k) * msPerDay - offset k * 60000

/-- The `startDate` of the chart routes for the month named `months[i]`. -/
def startDate (offset : Nat → Int) (i : Fin 12) : Int := firstOfMonth offset i.val

/-- The `endDate` of the chart routes: `startDate` with its month advanced by
one. -/
def endDate (offset : Nat → Int) (i : Fin 12) : Int := firstOfMonth offset (i.val + 1)

/-! ## Regular expressions -/

/-- Whether `subject` begins with `pat`. -/
def beginsWith : List Char → List Char → Bool
  | _, [] => true
  | [], _ :: _ => false
  | c :: cs, p :: ps => c == p && beginsWith cs ps

/-- Whether `pat` occurs in `subject` as a contiguous run. -/
def occursIn (pat : List Char) : List Char → Bool
  | [] => beginsWith [] pat
  | c :: cs => beginsWith (c :: cs) pat || occursIn pat cs

/-- Case-insensitive substring test (ASCII letters folded). -/
def containsCI (subject pat : String) : Bool :=
  occursIn (pat.data.map Char.toLower) (subject.data.map Char.toLower)

/-- Plain substring test. -/
def containsStr (subject pat : String) : Bool :=
  occursIn pat.data subject.data

/-- A pattern with no character that a regular expression reads as syntax:
ASCII letters, digits and spaces only. -/
def isLiteralPattern (s : String) : Bool :=
  s.data.all fun c => c.isAlphanum || c == ' '

/-- A compiled regular expression, as the test it performs on a text. -/
abbrev RegExp := String → Bool

/-- The constructor `new RegExp(search, 'i')`.  On a literal pattern the
expression finds the pattern as a case-insensitive substring.  Any other
pattern is handed to `engine`, which stands for the regular-expression engine
proper: `none` when the constructor throws a `SyntaxError`. -/
def newRegExp (engine : String → Option RegExp) (search : String) : Option RegExp :=
  if isLiteralPattern search then some fun subject => containsCI subject search
  else engine search

/-- A query condition `field: /re/` in the store: it holds of text that the
expression matches, and of no value of another type. -/
def regexMatches (re : RegExp) : Value → Bool
  | .text s => re s
  | _ => false

/-! ## Pipeline documents -/

/-- The fields a query of this program names. -/
inductive Field where
  | title
  | description
  | price
  | dateOfSale
  | sold
  | month
deriving DecidableEq, Repr

/-- A document in a pipeline after the stage
`$addFields: { month: { $month: "$dateOfSale" } }`. -/
structure Doc where
  product : Product
  month : Option Nat
deriving DecidableEq, Repr

/-- The stage `$addFields` of both pipelines: `$month` of a missing date is
null. -/
def addFields (p : Product) : Doc :=
  ⟨p, p.dateOfSale.map utcMonth⟩

/-- The value a document holds under a field. -/
def Doc.get (d : Doc) : Field → Value
  | .title => match d.product.title with
    | some s => .text s
    | none => .null
  | .description => match d.product.description with
    | some s => .text s
    | none => .null
  | .price => match d.product.price with
    | some q => .number q
    | none => .null
  | .dateOfSale => match d.product.dateOfSale with
    | some t => .date t
    | none => .null
  | .sold => match d.product.sold with
    | some b => .boolean b
    | none => .null
  | .month => match d.month with
    | some m => .number m
    | none => .null

/-- The object `queries` of the transaction and statistics routes. -/
structure Queries where
  month : Option Int
  or : Option (List (Field × RegExp))

/-- The stage `$match: { ...queries }`: every key present must hold, and
`$or` holds when one of its clauses does. -/
def Queries.holds (q : Queries) (d : Doc) : Bool :=
  (match q.month with
    | none => true
    | some m => decide (d.get .month = .number m)) &&
  (match q.or with
    | none => true
    | some clauses => clauses.any fun c => regexMatches c.2 (d.get c.1))

/-- The documents that reach `$facet`: the collection after `$addFields` and
`$match`. -/
def matched (store : Store) (q : Queries) : List Doc :=
  (store.map addFields).filter q.holds

/-! ## GET /api/transactions -/

/-- A value bound by `const { page = 1, perPage = 10 } = req.query`: the
number of the default when the parameter is absent, else the text of the
request, a decimal numeral. -/
inductive JsVal where
  | number (n : Int)
  | text (numeral : Nat)
deriving DecidableEq, Repr

/-- A number as the handler computes it: a double of integer value, an
infinity, or NaN. -/
inductive JsNumber where
  | finite (n : Int)
  | posInf
  | negInf
  | nan
deriving DecidableEq, Repr

/-- The number of binary digits of `n`, counted in at most `steps` halvings;
`steps = n` always suffices. -/
def bitLengthWithin : Nat → Nat → Nat
  | 0, _ => 0
  | steps + 1, n => if n = 0 then 0 else bitLengthWithin steps (n / 2) + 1

/-- The number of binary digits of `n`. -/
def bitLength (n : Nat) : Nat := bitLengthWithin n n

/-- Rounding of a natural number to 53 significant bits, to nearest, ties to
even. -/
def roundNat53 (n : Nat) : Nat :=
  if n < 2 ^ 53 then n
  else
    let shift := bitLength n - 53
    let q := n / 2 ^ shift
    let r := n % 2 ^ shift
    let half := 2 ^ (shift - 1)
    let q1 := if half < r ∨ (r = half ∧ q % 2 = 1) then q + 1 else q
    q1 * 2 ^ shift

/-- The double nearest to an integer: the integer itself below 2^53, an
infinity when the rounded value needs more than 1024 binary digits (it is then
at least 2^1024, beyond the largest double). -/
def JsNumber.ofInt (z : Int) : JsNumber :=
  if z.natAbs < 2 ^ 53 then .finite z
  else if 1024 < bitLength (roundNat53 z.natAbs) then (if z < 0 then .negInf else .posInf)
  else .finite (if z < 0 then -(roundNat53 z.natAbs : Int) else (roundNat53 z.natAbs : Int))

/-- The operator `-` on numbers. -/
def JsNumber.sub : JsNumber → JsNumber → JsNumber
  | .finite a, .finite b => .ofInt (a - b)
  | .finite _, .posInf => .negInf
  | .finite _, .negInf => .posInf
  | .posInf, .finite _ => .posInf
  | .posInf, .negInf => .posInf
  | .negInf, .finite _ => .negInf
  | .negInf, .posInf => .negInf
  | _, _ => .nan

/-- The operator `*` on numbers. -/
def JsNumber.mul : JsNumber → JsNumber → JsNumber
  | .finite a, .finite b => .ofInt (a * b)
  | .finite a, .posInf => if a = 0 then .nan else if 0 < a then .posInf else .negInf
  | .finite a, .negInf => if a = 0 then .nan else if 0 < a then .negInf else .posInf
  | .posInf, .finite b => if b = 0 then .nan else if 0 < b then .posInf else .negInf
  | .negInf, .finite b => if b = 0 then .nan else if 0 < b then .negInf else .posInf
  | .posInf, .posInf => .posInf
  | .negInf, .negInf => .posInf
  | .posInf, .negInf => .negInf
  | .negInf, .posInf => .negInf
  | _, _ => .nan

/-- Numeric coercion, as applied by `-` and `*`: a number is itself, a numeral
is read as the nearest double. -/
def JsVal.toNumber : JsVal → JsNumber
  | .number n => .ofInt n
  | .text numeral => .ofInt numeral

/-- The expression `(page - 1) * perPage`. -/
def skipArgument (page perPage : JsVal) : JsNumber :=
  (page.toNumber.sub (.finite 1)).mul perPage.toNumber

/-- The parameters of the transactions route. -/
structure TransactionsQuery where
  month : Option Nat
  search : Option String
  page : Option Nat
  perPage : Option Nat
deriving DecidableEq, Repr

/-- The `$or` clauses built from a truthy `search`: the same expression on
`title`, `description` and `price`. -/
def searchClauses (re : RegExp) : List (Field × RegExp) :=
  [(.title, re), (.description, re), (.price, re)]

/-- The object `queries` of the transactions route; `none` when
`new RegExp` throws.  A present `month` is non-empty text, hence truthy, and
`parseInt` reads its numeral; the empty `search` is falsy. -/
def transactionQueries (engine : String → Option RegExp) (month : Option Nat)
    (search : Option String) : Option Queries :=
  let m : Option Int := month.map fun n => (n : Int)
  match search with
  | none => some ⟨m, none⟩
  | some s =>
    if s = "" then some ⟨m, none⟩
    else match newRegExp engine s with
      | none => none
      | some re => some ⟨m, some (searchClauses re)⟩

/-- The stage `$skip`: the store takes an argument only when it is a
non-negative integer that fits a signed 64-bit integer. -/
def skipStage (n : JsNumber) (docs : List Doc) : Except String (List Doc) :=
  match n with
  | .finite k =>
    if k < 0 then .error "Argument to $skip cannot be negative"
    else if 2 ^ 63 ≤ k then .error "Argument to $skip cannot be represented as a 64-bit integer"
    else .ok (docs.drop k.toNat)
  | _ => .error "Argument to $skip cannot be represented as a 64-bit integer"

/-- The stage `$limit`: the store rejects an argument that is not a number,
a number that is not positive, and one that does not fit a signed 64-bit
integer. -/
def limitStage (v : JsVal) (docs : List Doc) : Except String (List Doc) :=
  match v with
  | .text _ => .error "the limit must be specified as a number"
  | .number n =>
    if n ≤ 0 then .error "the limit must be positive"
    else if 2 ^ 63 ≤ n then .error "the limit cannot be represented as a 64-bit integer"
    else .ok (docs.take n.toNat)

/-- The stage `$count: "count"`: one document when any input exists, none
otherwise. -/
def countStage (docs : List Doc) : List Nat :=
  if docs.isEmpty then [] else [docs.length]

/-- The single document `$facet` emits in the transactions pipeline. -/
structure TransactionsFacet where
  data : List Doc
  count : List Nat
deriving DecidableEq, Repr

/-- The aggregation `productAggregate` of the transactions route. -/
def productAggregate (store : Store) (q : Queries) (skip : JsNumber) (limit : JsVal) :
    Except String (List TransactionsFacet) :=
  match skipStage skip (matched store q) with
  | .error e => .error e
  | .ok skipped =>
    match limitStage limit skipped with
    | .error e => .error e
    | .ok data => .ok [⟨data, countStage (matched store q)⟩]

/-- The body of a 200 answer of the transactions route (`success: true`). -/
structure TransactionsBody where
  data : List Doc
  count : Nat
deriving DecidableEq, Repr

/-- The handler of `GET /api/transactions`: `.ok` is the 200 answer, `.error`
the message of the 500 answer. -/
def listTransactions (engine : String → Option RegExp) (store : Store)
    (req : TransactionsQuery) : Except String TransactionsBody :=
  let page : JsVal := match req.page with
    | none => .number 1
    | some p => .text p
  let perPage : JsVal := match req.perPage with
    | none => .number 10
    | some n => .text n
  match transactionQueries engine req.month req.search with
  | none => .error "Error fetching transactions"
  | some queries =>
    match productAggregate store queries (skipArgument page perPage) perPage with
    | .error _ => .error "Error fetching transactions"
    | .ok agg =>
      .ok ⟨(agg.head?.map fun f => f.data).getD [], (agg.head?.bind fun f => f.count.head?).getD 0⟩

/-! ## GET /api/statistics -/

/-- The object `queries` of the statistics route: the month only. -/
def statisticsQueries (month : Option Nat) : Queries :=
  ⟨month.map fun n => (n : Int), none⟩

/-- The accumulator `$sum: "$price"`, which passes over a missing price. -/
def sumPrice (docs : List Doc) : ℚ :=
  (docs.map fun d => d.product.price.getD 0).sum

/-- The expression `$cond: ["$sold", 1, 0]`. -/
def condSold (d : Doc) : Nat :=
  if d.product.sold = some true then 1 else 0

/-- The document grouped under `itemSold` (its `_id` is null). -/
structure ItemSold where
  totalAmount : ℚ
  totalItemsSold : Nat
deriving DecidableEq, Repr

/-- The document grouped under `itemNotSold` (its `_id` is null). -/
structure ItemNotSold where
  totalItemsNotSold : Nat
  totalItemsSold : Nat
deriving DecidableEq, Repr

/-- The sub-pipeline `itemSold`: `$group` with `_id: null` emits one document
for a non-empty input and none for an empty one. -/
def itemSold (docs : List Doc) : List ItemSold :=
  if docs.isEmpty then [] else [⟨sumPrice docs, (docs.map condSold).sum⟩]

/-- The stage `$match: {sold: false}`. -/
def matchNotSold (docs : List Doc) : List Doc :=
  docs.filter fun d => decide (d.get .sold = .boolean false)

/-- The sub-pipeline `itemNotSold`: `$match` on `sold: false`, then `$group`
with `$sum: 1` and the same `$cond` sum. -/
def itemNotSold (docs : List Doc) : List ItemNotSold :=
  let unsold := matchNotSold docs
  if unsold.isEmpty then [] else [⟨(unsold.map fun _ => 1).sum, (unsold.map condSold).sum⟩]

/-- The single document `$facet` emits in the statistics pipeline. -/
structure StatisticsFacet where
  itemSold : List ItemSold
  itemNotSold : List ItemNotSold
deriving DecidableEq, Repr

/-- The aggregation `totalSales` of the statistics route. -/
def totalSales (store : Store) (month : Option Nat) : List StatisticsFacet :=
  let docs := matched store (statisticsQueries month)
  [⟨itemSold docs, itemNotSold docs⟩]

/-- The handler of `GET /api/statistics`: the value of `totalSales` in its
answer `{ totalSales }`. -/
def getStatistics (store : Store) (month : Option Nat) : List StatisticsFacet :=
  totalSales store month

/-! ## GET /api/bar-chart -/

/-- One entry of `priceRanges`. -/
structure PriceRange where
  range : String
  min : ℚ
  max : ℚ
deriving DecidableEq, Repr

/-- The constant `Number.MAX_SAFE_INTEGER`. -/
def MAX_SAFE_INTEGER : ℚ := 9007199254740991

/-- The table `priceRanges` of the bar-chart route. -/
def priceRanges : List PriceRange :=
  [ ⟨"0-100", 0, 100⟩,
    ⟨"101-200", 101, 200⟩,
    ⟨"201-300", 201, 300⟩,
    ⟨"301-400", 301, 400⟩,
    ⟨"401-500", 401, 500⟩,
    ⟨"501-600", 501, 600⟩,
    ⟨"601-700", 601, 700⟩,
    ⟨"701-800", 701, 800⟩,
    ⟨"801-900", 801, 900⟩,
    ⟨"901-above", 901, MAX_SAFE_INTEGER⟩ ]

/-- The condition `dateOfSale: { $gte: startDate, $lt: endDate }`. -/
def dateInRange (start stop : Int) (p : Product) : Bool :=
  match p.dateOfSale with
  | some t => decide (start ≤ t) && decide (t < stop)
  | none => false

/-- The condition `price: { $gte: min, $lte: max }`. -/
def priceInRange (min max : ℚ) (p : Product) : Bool :=
  match p.price with
  | some q => decide (min ≤ q) && decide (q ≤ max)
  | none => false

/-- The call `Product.countDocuments` of the bar-chart loop. -/
def countDocuments (store : Store) (start stop : Int) (min max : ℚ) : Nat :=
  (store.filter fun p => dateInRange start stop p && priceInRange min max p).length

/-- One entry of the bar-chart answer. -/
structure BarEntry where
  range : String
  count : Nat
deriving DecidableEq, Repr

/-- The handler of `GET /api/bar-chart` for the month named `months[i]`: one
entry per price range, pushed in the order of the table. -/
def barChartCounts (offset : Nat → Int) (store : Store) (i : Fin 12) : List BarEntry :=
  priceRanges.foldl
    (fun result r =>
      result ++ [⟨r.range, countDocuments store (startDate offset i) (endDate offset i) r.min r.max⟩])
    []

/-! ## GET /api/initialize -/

/-- How `Product.deleteMany({})` ends: done, or failed leaving `kept`. -/
inductive DeleteOutcome where
  | done
  | failed (kept : Store)

/-- How `Product.insertMany(data)` ends: done, or failed after writing the
first `written` documents. -/
inductive InsertOutcome where
  | done
  | failed (written : Nat)

/-- The outcomes of the three awaited calls of the initialize route. -/
structure InitEnv where
  fetched : Except String (List Product)
  deleted : DeleteOutcome
  inserted : InsertOutcome

/-- The handler of `GET /api/initialize`: the store it leaves, and its answer
(`.ok` the text of the 200 answer, `.error` the message of the 500 answer). -/
def initializeDb (env : InitEnv) (store : Store) : Store × Except String String :=
  match env.fetched with
  | .error _ => (store, .error "Error initializing database")
  | .ok data =>
    match env.deleted with
    | .failed kept => (kept, .error "Error initializing database")
    | .done =>
      match env.inserted with
      | .failed written => (data.take written, .error "Error initializing database")
      | .done => (data, .ok "Database initialized with seed data")

/-! ## The dashboard: `fetchStatistics` -/

/-- A JSON value, as `response.json()` yields it. -/
inductive Json where
  | null
  | bool (b : Bool)
  | num (q : ℚ)
  | str (s : String)
  | arr (items : List Json)
  | obj (fields : List (String × Json))

/-- Property access `j.key`; `none` is `undefined`. -/
def Json.get (j : Json) (key : String) : Option Json :=
  match j with
  | .obj fields => fields.lookup key
  | _ => none

/-- Index access `j[i]`. -/
def Json.index (j : Json) (i : Nat) : Option Json :=
  match j with
  | .arr items => items.get? i
  | _ => none

/-- The property `length`, which arrays and strings have. -/
def Json.length (j : Json) : Option Nat :=
  match j with
  | .arr items => some items.length
  | .str s => some s.length
  | _ => none

/-- Truthiness of a value; `undefined` is falsy. -/
def truthy : Option Json → Bool
  | none => false
  | some .null => false
  | some (.bool b) => b
  | some (.num q) => decide (q ≠ 0)
  | some (.str s) => decide (s ≠ "")
  | some (.arr _) => true
  | some (.obj _) => true

/-- The expression `v || 0`. -/
def orZero (v : Option Json) : Json :=
  match v with
  | some j => if truthy (some j) then j else .num 0
  | none => .num 0

/-- JSON of a document grouped under `itemSold`. -/
def ItemSold.toJson (s : ItemSold) : Json :=
  .obj [("_id", .null), ("totalAmount", .num s.totalAmount),
    ("totalItemsSold", .num s.totalItemsSold)]

/-- JSON of a document grouped under `itemNotSold`. -/
def ItemNotSold.toJson (s : ItemNotSold) : Json :=
  .obj [("_id", .null), ("totalItemsNotSold", .num s.totalItemsNotSold),
    ("totalItemsSold", .num s.totalItemsSold)]

/-- JSON of the document `$facet` emits. -/
def StatisticsFacet.toJson (f : StatisticsFacet) : Json :=
  .obj [("itemSold", .arr (f.itemSold.map ItemSold.toJson)),
    ("itemNotSold", .arr (f.itemNotSold.map ItemNotSold.toJson))]

/-- The body `res.json({ totalSales })` of the statistics route. -/
def statisticsBody (store : Store) (month : Option Nat) : Json :=
  .obj [("totalSales", .arr ((getStatistics store month).map StatisticsFacet.toJson))]

/-- The state `statistics` of the dashboard. -/
structure Statistics where
  totalSales : Json
  soldItems : Json
  unsoldItems : Json

/-- The function `fetchStatistics` of `App.js` on the parsed body `data` of an
answer with `response.ok`: the value it passes to `setStatistics`. -/
def fetchStatistics (data : Json) : Statistics :=
  let totalSales := data.get "totalSales"
  if truthy totalSales && decide (0 < ((totalSales.bind Json.length).getD 0)) then
    { totalSales := orZero ((totalSales.bind fun t => t.index 0).bind fun x => x.get "totalAmount")
      soldItems := orZero ((totalSales.bind fun t => t.index 0).bind fun x => x.get "totalItemsSold")
      unsoldItems := orZero (data.get "totalNotSold") }
  else
    { totalSales := .num 0, soldItems := .num 0, unsoldItems := .num 0 }

/-! ## Record-level reading of the filters -/

/-- Spec wording: `month` is the calendar month extracted from `dateOfSale`;
when a month is given, keep the records whose computed month equals it. -/
def inMonth (month : Option Nat) (p : Product) : Bool :=
  match month with
  | none => true
  | some m => decide (p.dateOfSale.map utcMonth = some m)

/-- Record-level reading of the `$or` built from `search`: an absent or empty
`search` keeps every record; otherwise a record is kept when the expression
matches its `title`, its `description` or its `price`. -/
def passesSearch (engine : String → Option RegExp) (search : Option String) (p : Product) : Bool :=
  match search with
  | none => true
  | some s =>
    if s = "" then true
    else match newRegExp engine s with
      | none => false
      | some re =>
        regexMatches re ((addFields p).get .title) ||
        regexMatches re ((addFields p).get .description) ||
        regexMatches re ((addFields p).get .price)

/-! ## Sample data -/

/-- An engine that rejects every pattern outside the literal fragment; the
samples use literal patterns only. -/
def literalEngine : String → Option RegExp := fun _ => none

/-- A record sold on 15 March 2023, at midnight UTC. -/
def marchRecord (price : ℚ) (sold : Bool) : Product :=
  ⟨some 1, some "Mens Casual Shirt", some "Slim fit cotton", some price, some "clothing",
    some 1678838400000, some sold⟩

/-- A record priced 123 whose title and description do not contain "12". -/
def widget : Product :=
  ⟨some 2, some "Widget", some "A thing", some 123, some "misc", some 1679270400000, some false⟩

/-- A record sold on 4 July 2022. -/
def lamp : Product :=
  ⟨some 3, some "Desk Lamp", some "Warm light", some 999, some "home", some 1656892800000,
    some false⟩

/-- A store of three records, two of them sold in March. -/
def sampleStore : Store := [marchRecord 50 true, widget, lamp]

/-! ## Lemmas on the statistics pipeline -/

theorem holds_statisticsQueries (month : Option Nat) (p : Product) :
    (statisticsQueries month).holds (addFields p) = inMonth month p := by
  cases month with
  | none => simp [statisticsQueries, Queries.holds, inMonth]
  | some m =>
    cases h : p.dateOfSale with
    | none => simp [statisticsQueries, Queries.holds, inMonth, addFields, Doc.get, h]
    | some t => simp [statisticsQueries, Queries.holds, inMonth, addFields, Doc.get, h]

theorem matched_statisticsQueries (store : Store) (month : Option Nat) :
    matched store (statisticsQueries month) = (store.filter (inMonth month)).map addFields := by
  unfold matched
  rw [List.filter_map]
  congr 1
  apply List.filter_congr
  intro p _
  exact holds_statisticsQueries month p

theorem sumPrice_addFields (ps : List Product) :
    sumPrice (ps.map addFields) = (ps.map fun p => p.price.getD 0).sum := by
  simp [sumPrice, addFields, Function.comp_def]

theorem sum_condSold (ps : List Product) :
    ((ps.map addFields).map condSold).sum =
      (ps.filter fun p => decide (p.sold = some true)).length := by
  induction ps with
  | nil => rfl
  | cons p ps ih =>
    by_cases h : p.sold = some true
    · simp only [List.map_cons, List.sum_cons, ih, List.filter_cons, h, decide_True, if_true,
        List.length_cons]
      simp [condSold, addFields, h]; omega
    · simp only [List.map_cons, List.sum_cons, ih, List.filter_cons, h, decide_False]
      simp [condSold, addFields, h]

theorem matchNotSold_addFields (ps : List Product) :
    matchNotSold (ps.map addFields) =
      (ps.filter fun p => decide (p.sold = some false)).map addFields := by
  unfold matchNotSold
  rw [List.filter_map]
  congr 1
  apply List.filter_congr
  intro p _
  cases h : p.sold <;> simp [Doc.get, addFields, h]

theorem sum_condSold_unsold (ps : List Product) (h : ∀ p ∈ ps, p.sold = some false) :
    ((ps.map addFields).map condSold).sum = 0 := by
  rw [sum_condSold]
  simp only [List.length_eq_zero, List.filter_eq_nil_iff]
  intro p hp
  simp [h p hp]

theorem sum_ones {α : Type} (xs : List α) : (xs.map fun _ => 1).sum = xs.length := by
  induction xs with
  | nil => rfl
  | cons x xs ih => simp only [List.map_cons, List.sum_cons, ih, List.length_cons]; omega

theorem itemSold_addFields (ps : List Product) :
    itemSold (ps.map addFields) =
      if ps = [] then []
      else [⟨(ps.map fun p => p.price.getD 0).sum,
             (ps.filter fun p => decide (p.sold = some true)).length⟩] := by
  unfold itemSold
  by_cases h : ps = []
  · simp [h]
  · simp only [List.isEmpty_eq_true, List.map_eq_nil_iff, h, if_false, sumPrice_addFields,
      sum_condSold]

theorem itemNotSold_addFields (ps : List Product) :
    itemNotSold (ps.map addFields) =
      if ps.filter (fun p => decide (p.sold = some false)) = [] then []
      else [⟨(ps.filter fun p => decide (p.sold = some false)).length, 0⟩] := by
  unfold itemNotSold
  simp only [matchNotSold_addFields]
  by_cases h : ps.filter (fun p => decide (p.sold = some false)) = []
  · simp [h]
  · have h0 := sum_condSold_unsold (ps.filter fun p => decide (p.sold = some false))
      (fun p hp => by simpa using (List.mem_filter.mp hp).2)
    simp only [List.isEmpty_eq_true, List.map_eq_nil_iff, h, if_false, h0, sum_ones,
      List.length_map]

/-! ## Lemmas on the transactions pipeline -/

theorem countStage_head (docs : List Doc) : ((countStage docs).head?).getD 0 = docs.length := by
  cases docs <;> simp [countStage]

/-- Below 2^53 an integer is its own double. -/
theorem ofInt_small (z : Int) (h : z.natAbs < 2 ^ 53) : JsNumber.ofInt z = .finite z := by
  unfold JsNumber.ofInt
  rw [if_pos h]

/-- The skip of a request without `page` and `perPage` is 0. -/
theorem skipArgument_defaults : skipArgument (.number 1) (.number 10) = .finite 0 := by
  have h1 : JsNumber.ofInt 1 = .finite 1 := ofInt_small 1 (by decide)
  have h10 : JsNumber.ofInt 10 = .finite 10 := ofInt_small 10 (by decide)
  have h0 : JsNumber.ofInt 0 = .finite 0 := ofInt_small 0 (by decide)
  simp [skipArgument, JsVal.toNumber, JsNumber.sub, JsNumber.mul, h1, h10, h0]

/-- While `(page - 1) * 10` stays below 2^53 the skip is computed exactly. -/
theorem skipArgument_page (p : Nat) (h1 : 1 ≤ p) (h : (p - 1) * 10 < 2 ^ 53) :
    skipArgument (.text p) (.number 10) = .finite (((p : Int) - 1) * 10) := by
  have e53 : (2 : Nat) ^ 53 = 9007199254740992 := by norm_num
  rw [e53] at h
  have hp : JsNumber.ofInt (p : Int) = .finite p := ofInt_small _ (by rw [e53]; omega)
  have h10 : JsNumber.ofInt 10 = .finite 10 := ofInt_small 10 (by decide)
  have hs : JsNumber.ofInt ((p : Int) - 1) = .finite ((p : Int) - 1) :=
    ofInt_small _ (by rw [e53]; omega)
  have hm : JsNumber.ofInt (((p : Int) - 1) * 10) = .finite (((p : Int) - 1) * 10) :=
    ofInt_small _ (by rw [e53]; omega)
  simp [skipArgument, JsVal.toNumber, JsNumber.sub, JsNumber.mul, hp, h10, hs, hm]

/-- A stage `$skip` that is accepted drops a prefix. -/
theorem skipStage_ok_inv (n : JsNumber) (docs skipped : List Doc)
    (h : skipStage n docs = .ok skipped) : ∃ k, skipped = docs.drop k := by
  unfold skipStage at h
  split at h
  · split at h
    · cases h
    · split at h
      · cases h
      · exact ⟨_, by cases h; rfl⟩
  · cases h

/-- A textual `$limit` fails the aggregation, whatever the skip. -/
theorem productAggregate_text (store : Store) (q : Queries) (skip : JsNumber) (n : Nat) :
    ∃ e, productAggregate store q skip (.text n) = .error e := by
  unfold productAggregate
  cases h : skipStage skip (matched store q) with
  | error e => exact ⟨e, rfl⟩
  | ok skipped => exact ⟨"the limit must be specified as a number", rfl⟩

/-- With the default limit of 10 the aggregation stands or falls with `$skip`. -/
theorem productAggregate_ten (store : Store) (q : Queries) (skip : JsNumber) :
    productAggregate store q skip (.number 10) =
      match skipStage skip (matched store q) with
      | .error e => .error e
      | .ok skipped => .ok [⟨skipped.take 10, countStage (matched store q)⟩] := by
  unfold productAggregate
  cases h : skipStage skip (matched store q) with
  | error e => rfl
  | ok skipped => simp [limitStage]

/-- The handler in normal form: it answers 200 exactly when the search text
compiles, `perPage` is absent and the store takes the skip. -/
theorem listTransactions_eq (engine : String → Option RegExp) (store : Store)
    (month : Option Nat) (search : Option String) (page perPage : Option Nat) :
    listTransactions engine store ⟨month, search, page, perPage⟩ =
      match transactionQueries engine month search, perPage with
      | some q, none =>
        match skipStage (skipArgument (match page with
            | none => JsVal.number 1
            | some p => JsVal.text p) (.number 10)) (matched store q) with
        | .error _ => .error "Error fetching transactions"
        | .ok skipped => .ok ⟨skipped.take 10, (matched store q).length⟩
      | _, _ => .error "Error fetching transactions" := by
  unfold listTransactions
  cases hq : transactionQueries engine month search with
  | none => simp
  | some q =>
    cases perPage with
    | some n =>
      obtain ⟨e, he⟩ := productAggregate_text store q
        (skipArgument (match page with
            | none => JsVal.number 1
            | some p => JsVal.text p) (JsVal.text n)) n
      simp [he]
    | none =>
      simp only [productAggregate_ten]
      cases h : skipStage (skipArgument (match page with
            | none => JsVal.number 1
            | some p => JsVal.text p) (.number 10)) (matched store q) with
      | error e => rfl
      | ok skipped => simp [countStage_head]

/-- The answer to a request without `page` and `perPage`. -/
theorem listTransactions_first (engine : String → Option RegExp) (store : Store)
    (month : Option Nat) (search : Option String) (q : Queries)
    (hq : transactionQueries engine month search = some q) :
    listTransactions engine store ⟨month, search, none, none⟩ =
      .ok ⟨(matched store q).take 10, (matched store q).length⟩ := by
  rw [listTransactions_eq, hq]
  simp [skipArgument_defaults, skipStage]

/-- The answer to a request for page `i + 1` without `perPage`, while the skip
`i * 10` is computed exactly. -/
theorem listTransactions_page (engine : String → Option RegExp) (store : Store)
    (month : Option Nat) (search : Option String) (q : Queries)
    (hq : transactionQueries engine month search = some q) (i : Nat)
    (hi : i < 900719925474100) :
    listTransactions engine store ⟨month, search, some (i + 1), none⟩ =
      .ok ⟨((matched store q).drop (i * 10)).take 10, (matched store q).length⟩ := by
  have e53 : (2 : Nat) ^ 53 = 9007199254740992 := by norm_num
  have hb : (i + 1 - 1) * 10 < 2 ^ 53 := by rw [e53]; omega
  rw [listTransactions_eq, hq]
  simp only
  rw [skipArgument_page (i + 1) (by omega) hb]
  have h1 : ¬ ((((i + 1 : Nat) : Int) - 1) * 10 < 0) := by push_cast; omega
  have h2 : ¬ ((2 : Int) ^ 63 ≤ (((i + 1 : Nat) : Int) - 1) * 10) := by
    have e63 : (2 : Int) ^ 63 = 9223372036854775808 := by norm_num
    rw [e63]; push_cast; omega
  have h3 : ((((i + 1 : Nat) : Int) - 1) * 10).toNat = i * 10 := by push_cast; omega
  simp only [skipStage, h1, h2, if_false, h3]

theorem month_clause (m : Nat) (p : Product) :
    decide ((addFields p).get .month = .number ((m : Int) : ℚ)) = inMonth (some m) p := by
  cases h : p.dateOfSale <;> simp [inMonth, addFields, Doc.get, h]

theorem month_part (month : Option Nat) (p : Product) :
    (match month.map fun n => (n : Int) with
      | none => true
      | some m => decide ((addFields p).get .month = .number (m : ℚ))) = inMonth month p := by
  cases month with
  | none => rfl
  | some m => exact month_clause m p

theorem holds_transactionQueries (engine : String → Option RegExp) (month : Option Nat)
    (search : Option String) (q : Queries) (hq : transactionQueries engine month search = some q)
    (p : Product) :
    q.holds (addFields p) = (inMonth month p && passesSearch engine search p) := by
  unfold transactionQueries at hq
  cases search with
  | none =>
    simp only [Option.some.injEq] at hq
    subst hq
    simp only [Queries.holds, month_part]
    simp [passesSearch]
  | some s =>
    by_cases hs : s = ""
    · simp only [hs, if_true, Option.some.injEq] at hq
      subst hq
      simp only [Queries.holds, month_part]
      simp [passesSearch, hs]
    · cases hre : newRegExp engine s with
      | none => simp [hs, hre] at hq
      | some re =>
        simp only [hs, if_false, hre, Option.some.injEq] at hq
        subst hq
        simp only [Queries.holds, month_part]
        simp [passesSearch, hs, hre, searchClauses, Bool.or_assoc]

theorem matched_transactionQueries (engine : String → Option RegExp) (store : Store)
    (month : Option Nat) (search : Option String) (q : Queries)
    (hq : transactionQueries engine month search = some q) :
    matched store q =
      (store.filter fun p => inMonth month p && passesSearch engine search p).map addFields := by
  unfold matched
  rw [List.filter_map]
  congr 1
  apply List.filter_congr
  intro p _
  exact holds_transactionQueries engine month search q hq p

theorem listTransactions_ok_inv (engine : String → Option RegExp) (store : Store)
    (month : Option Nat) (search : Option String) (page perPage : Option Nat)
    (body : TransactionsBody)
    (h : listTransactions engine store ⟨month, search, page, perPage⟩ = .ok body) :
    ∃ q n, transactionQueries engine month search = some q ∧
      body = ⟨((matched store q).drop n).take 10, (matched store q).length⟩ := by
  rw [listTransactions_eq] at h
  cases hq : transactionQueries engine month search with
  | none => simp [hq] at h
  | some q =>
    cases perPage with
    | some n => simp [hq] at h
    | none =>
      simp only [hq] at h
      split at h
      · cases h
      · rename_i skipped hs
        obtain ⟨k, hk⟩ := skipStage_ok_inv _ _ _ hs
        simp only [Except.ok.injEq] at h
        exact ⟨q, k, rfl, by rw [← h, hk]⟩

theorem flatten_pages {α : Type} (l : List α) (n k : Nat) :
    ((List.range k).map fun i => (l.drop (i * n)).take n).flatten = l.take (k * n) := by
  induction k with
  | zero => simp
  | succ k ih =>
    rw [List.range_succ, List.map_append, List.flatten_append, ih, Nat.succ_mul, List.take_add]
    simp

/-! ## Transactions -/

/-- C1 (amended): when the search text compiles, `perPage` is left to its
default and `page` is absent or lies between 1 and 900719925474100 (so that the
skip `(page - 1) * 10` is computed exactly and fits the store's 64-bit
argument), `listTransactions` answers 200 and its `count` is the number of
records of the store that pass the month and search filter: the same for every
such page, and 0 when no record passes. -/
theorem listTransactions_count (engine : String → Option RegExp) (store : Store)
    (month : Option Nat) (search : Option String) (page : Option Nat) (q : Queries)
    (hq : transactionQueries engine month search = some q)
    (hp : ∀ p, page = some p → 1 ≤ p ∧ p ≤ 900719925474100) :
    ∃ data, listTransactions engine store ⟨month, search, page, none⟩ =
      .ok ⟨data, (store.filter fun p => inMonth month p && passesSearch engine search p).length⟩ := by
  have hm := congrArg List.length (matched_transactionQueries engine store month search q hq)
  rw [List.length_map] at hm
  rw [← hm]
  cases page with
  | none => exact ⟨_, listTransactions_first engine store month search q hq⟩
  | some p =>
    obtain ⟨h1, h2⟩ := hp p rfl
    obtain ⟨i, rfl⟩ : ∃ i, p = i + 1 := ⟨p - 1, by omega⟩
    exact ⟨_, listTransactions_page engine store month search q hq i (by omega)⟩

/-- C1, witness: the second page of the sample store, filtered on March. -/
theorem listTransactions_count_witness :
    ∃ data, listTransactions literalEngine sampleStore ⟨some 3, none, some 2, none⟩ =
      .ok ⟨data, (sampleStore.filter fun p =>
        inMonth (some 3) p && passesSearch literalEngine none p).length⟩ :=
  listTransactions_count literalEngine sampleStore (some 3) none (some 2) ⟨some 3, none⟩
    (by rfl) (by intro p hp; cases hp; decide)

/-- C1, counterexample: with `page=0` the stage `$skip` receives -10, the
aggregation is rejected and the handler answers 500: no count is returned,
although three records pass the (empty) filter. -/
theorem listTransactions_page_zero :
    listTransactions literalEngine sampleStore ⟨none, none, some 0, none⟩ =
        .error "Error fetching transactions" ∧
    (sampleStore.filter fun p => inMonth none p && passesSearch literalEngine none p).length = 3 := by
  decide

/-- With `page` at 10^18 the skip is computed as 10^19, which does not fit a
signed 64-bit integer: the store rejects it and the handler answers 500. -/
theorem listTransactions_page_huge :
    skipArgument (.text 1000000000000000000) (.number 10) = .finite 10000000000000000000 ∧
    listTransactions literalEngine sampleStore ⟨none, none, some 1000000000000000000, none⟩ =
      .error "Error fetching transactions" := by
  decide

/-- C2: whenever `perPage` is present in the request it reaches `$limit` as
text, the aggregation is rejected and the handler answers 500: no page is
returned at all, whatever the store, the filter and the page. -/
theorem listTransactions_perPage_rejected (engine : String → Option RegExp) (store : Store)
    (month : Option Nat) (search : Option String) (page : Option Nat) (perPage : Nat) :
    listTransactions engine store ⟨month, search, page, some perPage⟩ =
      .error "Error fetching transactions" := by
  rw [listTransactions_eq]
  cases transactionQueries engine month search <;> rfl

/-- With `perPage` left to its default of 10, the pages 1, 2, ... of one filter
(up to page 900719925474100, while the skip is computed exactly) are the
successive runs of 10 of the filtered set: each holds at most 10
records, the first `ceil(count / 10)` of them concatenate to the filtered set in
store order, and every later page is empty. -/
theorem listTransactions_default_pages (engine : String → Option RegExp) (store : Store)
    (month : Option Nat) (search : Option String) (q : Queries)
    (hq : transactionQueries engine month search = some q) :
    (∀ i, i < 900719925474100 →
      listTransactions engine store ⟨month, search, some (i + 1), none⟩ =
        .ok ⟨((matched store q).drop (i * 10)).take 10, (matched store q).length⟩) ∧
    (∀ i, (((matched store q).drop (i * 10)).take 10).length ≤ 10) ∧
    ((List.range (((matched store q).length + 9) / 10)).map
      fun i => ((matched store q).drop (i * 10)).take 10).flatten = matched store q ∧
    (∀ i, ((matched store q).length + 9) / 10 ≤ i →
      ((matched store q).drop (i * 10)).take 10 = []) := by
  refine ⟨fun i hi => ?_, fun i => ?_, ?_, fun i hi => ?_⟩
  · exact listTransactions_page engine store month search q hq i hi
  · rw [List.length_take]; omega
  · rw [flatten_pages, List.take_of_length_le]
    omega
  · rw [List.drop_of_length_le, List.take_nil]
    omega

/-- C3: every record in the `data` of `listTransactions(month = m)` is a record
of the store whose `dateOfSale` has calendar month `m` and which also satisfies
the search condition; when `month` is absent the count is that of the records
satisfying the search condition alone, whatever their month. -/
theorem listTransactions_month_and_search (engine : String → Option RegExp) (store : Store)
    (search : Option String) (page perPage : Option Nat) (body : TransactionsBody) :
    (∀ m, listTransactions engine store ⟨some m, search, page, perPage⟩ = .ok body →
      ∀ d ∈ body.data, ∃ p ∈ store, d = addFields p ∧
        p.dateOfSale.map utcMonth = some m ∧ passesSearch engine search p = true) ∧
    (listTransactions engine store ⟨none, search, page, perPage⟩ = .ok body →
      body.count = (store.filter (passesSearch engine search)).length ∧
      ∀ d ∈ body.data, ∃ p ∈ store, d = addFields p ∧ passesSearch engine search p = true) := by
  constructor
  · intro m h d hd
    obtain ⟨q, n, hq, rfl⟩ := listTransactions_ok_inv engine store (some m) search page perPage body h
    have hd2 := List.mem_of_mem_drop (List.mem_of_mem_take hd)
    rw [matched_transactionQueries engine store (some m) search q hq] at hd2
    obtain ⟨p, hp, rfl⟩ := List.mem_map.mp hd2
    obtain ⟨hps, hpf⟩ := List.mem_filter.mp hp
    simp only [Bool.and_eq_true, inMonth, decide_eq_true_eq] at hpf
    exact ⟨p, hps, rfl, hpf.1, hpf.2⟩
  · intro h
    obtain ⟨q, n, hq, rfl⟩ := listTransactions_ok_inv engine store none search page perPage body h
    rw [matched_transactionQueries engine store none search q hq]
    simp only [inMonth, Bool.true_and, List.length_map, true_and]
    intro d hd
    have hd2 := List.mem_of_mem_drop (List.mem_of_mem_take hd)
    obtain ⟨p, hp, rfl⟩ := List.mem_map.mp hd2
    obtain ⟨hps, hpf⟩ := List.mem_filter.mp hp
    exact ⟨p, hps, rfl, hpf⟩

/-- C3, witness: the sample store filtered on March and on the text "shirt"
answers the one March record whose title matches. -/
theorem listTransactions_month_and_search_witness :
    listTransactions literalEngine sampleStore ⟨some 3, some "shirt", none, none⟩ =
        .ok ⟨[addFields (marchRecord 50 true)], 1⟩ ∧
    ∀ d ∈ [addFields (marchRecord 50 true)], ∃ p ∈ sampleStore, d = addFields p ∧
      p.dateOfSale.map utcMonth = some 3 ∧ passesSearch literalEngine (some "shirt") p = true :=
  ⟨by decide,
   (listTransactions_month_and_search literalEngine sampleStore (some "shirt") none none
      ⟨[addFields (marchRecord 50 true)], 1⟩).1 3 (by decide)⟩

/-- C4: on a store holding one record priced 123 whose title and description
do not contain "12", the search "12" answers no record and count 0, although
the decimal form "123" of the price contains "12". -/
theorem listTransactions_search_price :
    listTransactions literalEngine [widget] ⟨none, some "12", none, none⟩ = .ok ⟨[], 0⟩ ∧
    widget.price = some 123 ∧ containsStr "123" "12" = true := by
  decide

/-- With a literal, non-empty search text a record passes the search filter
exactly when its title or its description contains the text, letter case
ignored; the clause on `price` never holds, a price being a number. -/
theorem passesSearch_literal (engine : String → Option RegExp) (s : String) (p : Product)
    (hs : s ≠ "") (hl : isLiteralPattern s = true) :
    passesSearch engine (some s) p =
      ((p.title.map fun t => containsCI t s).getD false ||
       (p.description.map fun t => containsCI t s).getD false) := by
  cases ht : p.title <;> cases hd : p.description <;> cases hp : p.price <;>
    simp [passesSearch, hs, newRegExp, hl, addFields, Doc.get, regexMatches, ht, hd, hp]

/-! ## Statistics -/

/-- C7: `getStatistics` answers one facet document; its `itemSold` is empty when
no record passes the month filter, and otherwise holds exactly one object whose
`totalAmount` is the sum of `price` over all filtered records, sold or not, and
whose `totalItemsSold` is the number of filtered records with `sold == true`. -/
theorem getStatistics_itemSold_totals (store : Store) (month : Option Nat) :
    ∃ notSold, getStatistics store month =
      [⟨if store.filter (inMonth month) = [] then []
        else [⟨((store.filter (inMonth month)).map fun p => p.price.getD 0).sum,
               ((store.filter (inMonth month)).filter fun p => decide (p.sold = some true)).length⟩],
        notSold⟩] :=
  ⟨itemNotSold (matched store (statisticsQueries month)), by
    simp only [getStatistics, totalSales, matched_statisticsQueries, itemSold_addFields]⟩

/-- C8: the `itemNotSold` of `getStatistics` is empty exactly when no filtered
record has `sold == false`, and otherwise is a single object whose
`totalItemsNotSold` counts the filtered records with `sold == false` and whose
`totalItemsSold` is 0. -/
theorem getStatistics_itemNotSold_totals (store : Store) (month : Option Nat) :
    ∃ sold, getStatistics store month =
      [⟨sold,
        if (store.filter (inMonth month)).filter (fun p => decide (p.sold = some false)) = [] then []
        else [⟨((store.filter (inMonth month)).filter fun p => decide (p.sold = some false)).length,
               0⟩]⟩] :=
  ⟨itemSold (matched store (statisticsQueries month)), by
    simp only [getStatistics, totalSales, matched_statisticsQueries, itemNotSold_addFields]⟩

/-! ## Seeding -/

/-- C9: when fetch, delete and insert all succeed the store becomes exactly the
fetched dataset, whatever it held before, so two runs from different stores end
in the same store; a failed fetch leaves the store untouched and answers an
error; an insert that fails after the delete answers an error with the prior
content gone (the store holds only the documents already written). -/
theorem initializeDb_replaces_store (prior : Store) (d : List Product) :
    initializeDb ⟨.ok d, .done, .done⟩ prior = (d, .ok "Database initialized with seed data") ∧
    (∀ other : Store,
      (initializeDb ⟨.ok d, .done, .done⟩ other).1 = (initializeDb ⟨.ok d, .done, .done⟩ prior).1) ∧
    (∀ e del ins,
      initializeDb ⟨.error e, del, ins⟩ prior = (prior, .error "Error initializing database")) ∧
    (∀ written,
      initializeDb ⟨.ok d, .done, .failed written⟩ prior =
        (d.take written, .error "Error initializing database")) :=
  ⟨rfl, fun _ => rfl, fun _ _ _ => rfl, fun _ => rfl⟩

/-! ## The dashboard cards -/

/-- C10: the body of the statistics answer is a one-element `totalSales` whose
element has only the fields `itemSold` and `itemNotSold`, and from it
`fetchStatistics` derives `totalSales = 0`, `soldItems = 0`, `unsoldItems = 0`,
whatever the store and the month. -/
theorem fetchStatistics_always_zero (store : Store) (month : Option Nat) :
    (∃ sold notSold, statisticsBody store month =
        .obj [("totalSales", .arr [.obj [("itemSold", .arr sold), ("itemNotSold", .arr notSold)]])]) ∧
    (fetchStatistics (statisticsBody store month)).totalSales = .num 0 ∧
    (fetchStatistics (statisticsBody store month)).soldItems = .num 0 ∧
    (fetchStatistics (statisticsBody store month)).unsoldItems = .num 0 := by
  refine ⟨⟨_, _, rfl⟩, ?_, ?_, ?_⟩ <;>
  simp [fetchStatistics, statisticsBody, getStatistics, totalSales, StatisticsFacet.toJson,
      Json.get, List.lookup, truthy, Json.length, Json.index, orZero]

/-! ## Bar chart -/

theorem barChartCounts_eq_map (offset : Nat → Int) (store : Store) (i : Fin 12) :
    barChartCounts offset store i =
      priceRanges.map fun r =>
        ⟨r.range, (store.filter fun p =>
          dateInRange (startDate offset i) (endDate offset i) p &&
            priceInRange r.min r.max p).length⟩ := by
  simp [barChartCounts, priceRanges, countDocuments]

theorem inRange_iff (start stop : Int) (min max : ℚ) (p : Product) :
    (dateInRange start stop p && priceInRange min max p) = true ↔
      ∃ t q, p.dateOfSale = some t ∧ p.price = some q ∧
        start ≤ t ∧ t < stop ∧ min ≤ q ∧ q ≤ max := by
  cases ht : p.dateOfSale <;> cases hq : p.price <;>
    simp [dateInRange, priceInRange, ht, hq, and_assoc]

/-- Counting the matches of a list one element at a time. -/
theorem length_filter_cons {α : Type} (q : α → Bool) (x : α) (xs : List α) :
    ((x :: xs).filter q).length = (xs.filter q).length + (if q x then 1 else 0) := by
  by_cases h : q x = true <;> simp [List.filter_cons, h]

/-- A record of the date range whose price is a whole number up to
`MAX_SAFE_INTEGER` lies in exactly one row of `priceRanges`. -/
theorem bucket_indicator_sum (start stop : Int) (p : Product)
    (h : dateInRange start stop p = true → ∃ n : Nat, p.price = some (n : ℚ) ∧ n ≤ 9007199254740991) :
    ((priceRanges.map fun r =>
      if (dateInRange start stop p && priceInRange r.min r.max p) = true then 1 else 0).sum : Nat) =
      if dateInRange start stop p = true then 1 else 0 := by
  by_cases hd : dateInRange start stop p = true
  · obtain ⟨n, hn, hmax⟩ := h hd
    simp only [priceRanges, List.map_cons, List.map_nil, List.sum_cons, List.sum_nil, hd,
      priceInRange, hn, MAX_SAFE_INTEGER, Bool.true_and, Bool.and_eq_true, decide_eq_true_eq,
      if_true]
    have e0 : ((0 : ℚ) ≤ (n : ℚ)) := by positivity
    simp only [Nat.cast_le_ofNat, Nat.ofNat_le_cast, e0, true_and]
    have hcase : n ≤ 100 ∨ (101 ≤ n ∧ n ≤ 200) ∨ (201 ≤ n ∧ n ≤ 300) ∨ (301 ≤ n ∧ n ≤ 400) ∨
        (401 ≤ n ∧ n ≤ 500) ∨ (501 ≤ n ∧ n ≤ 600) ∨ (601 ≤ n ∧ n ≤ 700) ∨
        (701 ≤ n ∧ n ≤ 800) ∨ (801 ≤ n ∧ n ≤ 900) ∨ 901 ≤ n := by omega
    rcases hcase with h | h | h | h | h | h | h | h | h | h <;>
      (simp (disch := omega) only [if_pos, if_neg]) <;> rfl
  · simp [hd]


/-- Counting under several conditions at once, one element at a time. -/
theorem sum_filter_lengths_cons {α β : Type} (rs : List β) (f : β → α → Bool) (x : α)
    (xs : List α) :
    (rs.map fun r => ((x :: xs).filter (f r)).length).sum =
      (rs.map fun r => (xs.filter (f r)).length).sum +
        (rs.map fun r => if f r x = true then 1 else 0).sum := by
  induction rs with
  | nil => rfl
  | cons r rs ih =>
    simp only [List.map_cons, List.sum_cons]
    rw [ih, length_filter_cons]
    omega

/-- When every record of the month has a whole-number price between 0 and
`MAX_SAFE_INTEGER`, the 10 counts of `barChartCounts` sum to the number of
records of the month. -/
theorem barChartCounts_sum_integer_prices (offset : Nat → Int) (store : Store) (i : Fin 12)
    (h : ∀ p ∈ store, dateInRange (startDate offset i) (endDate offset i) p = true →
      ∃ n : Nat, p.price = some (n : ℚ) ∧ n ≤ 9007199254740991) :
    ((barChartCounts offset store i).map fun e => e.count).sum =
      (store.filter (dateInRange (startDate offset i) (endDate offset i))).length := by
  rw [barChartCounts_eq_map, List.map_map]
  simp only [Function.comp_def]
  induction store with
  | nil => simp
  | cons p ps ih =>
    rw [sum_filter_lengths_cons priceRanges
      (fun r p => dateInRange (startDate offset i) (endDate offset i) p &&
        priceInRange r.min r.max p) p ps]
    rw [ih (fun q hq => h q (List.mem_cons_of_mem p hq)), length_filter_cons,
      bucket_indicator_sum _ _ p (h p (List.mem_cons_self p ps))]

/-- C6: `barChartCounts` answers exactly 10 entries, in the fixed order of the
ranges "0-100", ..., "901-above"; the count of each is the number of records
whose `dateOfSale` lies in the date range of the month and whose price `p`
satisfies `min <= p <= max`; three records of the month priced 50, 150 and 999
give the counts 1, 1, 0, 0, 0, 0, 0, 0, 0, 1. -/
theorem barChartCounts_entries (offset : Nat → Int) (store : Store) (i : Fin 12) :
    ((barChartCounts offset store i).map fun e => e.range) =
      ["0-100", "101-200", "201-300", "301-400", "401-500", "501-600", "601-700", "701-800",
        "801-900", "901-above"] ∧
    (barChartCounts offset store i).length = 10 ∧
    barChartCounts offset store i =
      (priceRanges.map fun r =>
        ⟨r.range, (store.filter fun p =>
          dateInRange (startDate offset i) (endDate offset i) p &&
            priceInRange r.min r.max p).length⟩) ∧
    (∀ (p : Product) (min max : ℚ),
      (dateInRange (startDate offset i) (endDate offset i) p && priceInRange min max p) = true ↔
        ∃ t q, p.dateOfSale = some t ∧ p.price = some q ∧
          startDate offset i ≤ t ∧ t < endDate offset i ∧ min ≤ q ∧ q ≤ max) ∧
    (∀ a b c : Product,
      dateInRange (startDate offset i) (endDate offset i) a = true →
      dateInRange (startDate offset i) (endDate offset i) b = true →
      dateInRange (startDate offset i) (endDate offset i) c = true →
      a.price = some 50 → b.price = some 150 → c.price = some 999 →
      ((barChartCounts offset [a, b, c] i).map fun e => e.count) =
        [1, 1, 0, 0, 0, 0, 0, 0, 0, 1]) := by
  refine ⟨?_, ?_, barChartCounts_eq_map offset store i, fun p min max => inRange_iff _ _ _ _ p, ?_⟩
  · simp [barChartCounts_eq_map, priceRanges]
  · simp [barChartCounts_eq_map, priceRanges]
  · intro a b c ha hb hc pa pb pc
    simp only [barChartCounts_eq_map, priceRanges, List.map_cons, List.map_nil, List.filter_cons,
      List.filter_nil, ha, hb, hc, priceInRange, pa, pb, pc, MAX_SAFE_INTEGER, Bool.true_and]
    norm_num

/-- C6, witness: three records of 15 March 2023 priced 50, 150 and 999, on a
server running in UTC. -/
theorem barChartCounts_entries_witness :
    ((barChartCounts (fun _ => 0)
        [marchRecord 50 true, marchRecord 150 false, marchRecord 999 false] 2).map
      fun e => e.count) = [1, 1, 0, 0, 0, 0, 0, 0, 0, 1] :=
  (barChartCounts_entries (fun _ => 0) [] 2).2.2.2.2
    (marchRecord 50 true) (marchRecord 150 false) (marchRecord 999 false)
    (by decide) (by decide) (by decide) rfl rfl rfl

/-- C5: a single March record priced 100.5 lies in the month, yet each of the
10 buckets counts 0, so the counts sum to 0 and not to 1. -/
theorem barChartCounts_fractional_price :
    months.get? 2 = some "March" ∧
    ([marchRecord (201 / 2) true].filter
      (dateInRange (startDate (fun _ => 0) 2) (endDate (fun _ => 0) 2))).length = 1 ∧
    ((barChartCounts (fun _ => 0) [marchRecord (201 / 2) true] 2).map fun e => e.count) =
      [0, 0, 0, 0, 0, 0, 0, 0, 0, 0] := by
  refine ⟨by decide, by decide, ?_⟩
  simp only [barChartCounts_eq_map, priceRanges, List.map_cons, List.map_nil, List.filter_cons,
    List.filter_nil, priceInRange, marchRecord, MAX_SAFE_INTEGER]
  norm_num

end Advanto
